import Mathlib

/-!
Shallow embedding of `src/dap_client.py` (python-objectviewer), a Debug
Adapter Protocol client.  Pure data transformations are translated to Lean
functions; socket communication is abstracted: the incoming byte stream is a
`List Char` for the framing layer, the incoming parsed-message stream is a
`List Msg` for the session layer, and the adapter's `variables` responses are
an oracle `Int → List VarRecord` for the variable-tree expander.  Python
exceptions become an `Except PyErr` result; Python's mutable `visited` set
(shared by reference through the recursion) becomes explicit state threading.
-/

/-- Python exception classes raised by the client code. -/
inductive PyErr where
  | connectionError (msg : String)
  | valueError
  | jsonDecodeError
  | keyError
  deriving Repr, DecidableEq

/-- One record of the adapter's `variables` response body: a Python dict with
a mandatory `name` entry and optional `value`, `type`, `evaluateName`,
`variablesReference` entries (`none` models a missing key). -/
structure VarRecord where
  name : String
  value : Option String
  type : Option String
  evaluateName : Option String
  variablesReference : Option Int
  deriving Repr, DecidableEq

/-- The dict built for each variable by `fetch_variable_tree` (lines 133-140
of `dap_client.py`).  `evaluateName` is `Option String` because the source
stores `v.get("evaluateName")`, which is `None` when the key is missing. -/
structure VariableNode where
  name : String
  value : String
  type : String
  evaluateName : Option String
  variablesReference : Int
  children : List VariableNode

/-- The synthetic cycle sentinel returned by `fetch_variable_tree` when
`var_ref in visited` (lines 114-123 of `dap_client.py`). -/
def recursiveSentinel : VariableNode :=
  { name := "<recursive>"
    value := "..."
    type := "recursive"
    evaluateName := none
    variablesReference := 0
    children := [] }

/-- Embedding of `fetch_variables` (lines 75-92 of `dap_client.py`): sends one
`variables` request (incrementing `seq`) and returns the adapter's reported
children for `var_ref`.  The wait loop that drains non-matching messages is
abstracted into the oracle `adapter`. -/
def fetch_variables (adapter : Int → List VarRecord) (seq : Nat) (var_ref : Int) :
    Nat × List VarRecord :=
  (seq + 1, adapter var_ref)

/-- The dict built for one child record `v` in the loop of
`fetch_variable_tree` (lines 132-140 of `dap_client.py`): `v["name"]`,
`v.get("value", "")`, `v.get("type", "")`, `v.get("evaluateName")`,
`v.get("variablesReference", 0)`, `children` initially empty. -/
def mkItem (v : VarRecord) : VariableNode :=
  { name := v.name
    value := v.value.getD ""
    type := v.type.getD ""
    evaluateName := v.evaluateName
    variablesReference := v.variablesReference.getD 0
    children := [] }

/-- One iteration of the `for v in vars_list` loop of `fetch_variable_tree`
(lines 131-149 of `dap_client.py`), abstracted over the recursive call
`expand` (which receives the current seq, the child reference, and the
current visited set).  It appends the built item in adapter order and threads
`seq` and `visited` left to right, as the Python loop does by mutation. -/
def fetchStep (expand : Nat → Int → List Int → Nat × List VariableNode × List Int)
    (st : Nat × List VariableNode × List Int) (v : VarRecord) :
    Nat × List VariableNode × List Int :=
  let child_ref := (mkItem v).variablesReference
  if child_ref > 0 then
    let r := expand st.1 child_ref st.2.2
    (r.1, st.2.1 ++ [{ mkItem v with children := r.2.1 }], r.2.2)
  else
    (st.1, st.2.1 ++ [mkItem v], st.2.2)

/-- Embedding of `fetch_variable_tree` (lines 95-151 of `dap_client.py`).
Python threads one mutable `visited` set through the whole recursion by
reference; here it is threaded explicitly and returned, so mutations made in
one branch are visible to later sibling branches exactly as in the source.
The depth budget is a `Nat`: the source's guard `child_ref > 0 and depth > 0`
makes every non-positive Python budget behave like 0, and the two match arms
below are the source body with that guard resolved per arm.  Returns
(updated seq, node list, updated visited). -/
def fetch_variable_tree (adapter : Int → List VarRecord) :
    (depth : Nat) → (seq : Nat) → (var_ref : Int) → (visited : List Int) →
    Nat × List VariableNode × List Int
  | 0, seq, var_ref, visited =>
    if var_ref ∈ visited then
      (seq, [recursiveSentinel], visited)
    else
      let visited := var_ref :: visited
      let sv := fetch_variables adapter seq var_ref
      (sv.1, sv.2.map mkItem, visited)
  | d + 1, seq, var_ref, visited =>
    if var_ref ∈ visited then
      (seq, [recursiveSentinel], visited)
    else
      let visited := var_ref :: visited
      let sv := fetch_variables adapter seq var_ref
      sv.2.foldl (fetchStep (fun s c vs => fetch_variable_tree adapter d s c vs))
        (sv.1, [], visited)

/-- Synthetic adapter for the cycle-safety scenario: variable A (reference 1)
has a single child whose reference points back to A. -/
def cyclicAdapter : Int → List VarRecord := fun r =>
  if r = 1 then
    [{ name := "a", value := some "<A>", type := some "obj",
       evaluateName := none, variablesReference := some 1 }]
  else []

/-- Synthetic adapter reporting an unbounded chain of singly-nested
variables: reference `r` has one child whose reference is `r + 1`. -/
def chainAdapter : Int → List VarRecord := fun r =>
  [{ name := "v", value := some "obj", type := some "t",
     evaluateName := none, variablesReference := some (r + 1) }]

/-- Synthetic adapter for the sibling-branch scenario: reference 1 has two
children `x` and `y` that both point to reference 2, and reference 2 has a
single non-expandable leaf child `z`. -/
def siblingAdapter : Int → List VarRecord := fun r =>
  if r = 1 then
    [{ name := "x", value := some "<X>", type := some "obj",
       evaluateName := none, variablesReference := some 2 },
     { name := "y", value := some "<Y>", type := some "obj",
       evaluateName := none, variablesReference := some 2 }]
  else if r = 2 then
    [{ name := "z", value := some "1", type := some "int",
       evaluateName := none, variablesReference := some 0 }]
  else []

/-- The tree `fetch_variable_tree` builds from `chainAdapter` at reference `r`
with depth budget `d`: a single path of `d + 1` nodes whose deepest node has
empty children even though its reference `r + d + 1` is non-zero. -/
def chainTree : Int → Nat → VariableNode
  | r, 0 =>
    { name := "v", value := "obj", type := "t", evaluateName := none,
      variablesReference := r + 1, children := [] }
  | r, d + 1 =>
    { name := "v", value := "obj", type := "t", evaluateName := none,
      variablesReference := r + 1, children := [chainTree (r + 1) d] }

/-- The references `fetch_variable_tree` adds to `visited` while expanding
`chainAdapter` from reference `r` with depth budget `d` (innermost first). -/
def chainRefs : Int → Nat → List Int
  | r, 0 => [r]
  | r, d + 1 => chainRefs (r + 1) d ++ [r]

/-- Python dict assignment `d[k] = v` on an insertion-ordered association
list: replaces the value at an existing key in place, else appends. -/
def dictInsert {α : Type} : List (String × α) → String → α → List (String × α)
  | [], k, v => [(k, v)]
  | (k', v') :: rest, k, v =>
    if k' = k then (k, v) :: rest else (k', v') :: dictInsert rest k v

/-- Python dict lookup `d.get(k)` on an association list. -/
def dictLookup {α : Type} : List (String × α) → String → Option α
  | [], _ => none
  | (k', v') :: rest, k => if k' = k then some v' else dictLookup rest k

/-- Python dict deletion `del d[k]` on an association list whose keys are
unique (as maintained by `dictInsert`): drops the entry at `k`. -/
def dictDel {α : Type} : List (String × α) → String → List (String × α)
  | [], _ => []
  | (k', v') :: rest, k => if k' = k then rest else (k', v') :: dictDel rest k

mutual

/-- Number of levels of a variable tree rooted at one node. -/
def nodeDepth : VariableNode → Nat
  | ⟨_, _, _, _, _, cs⟩ => 1 + listDepth cs

/-- Number of levels of a forest of variable nodes (0 when empty). -/
def listDepth : List VariableNode → Nat
  | [] => 0
  | n :: rest => max (nodeDepth n) (listDepth rest)

end

/-- Embedding of the scanning loop of `read_line` (lines 10-19 of
`dap_client.py`): collects bytes until a newline; reaching end of stream
before the newline is the `recv` returning no data, a `ConnectionError`.
Returns the collected bytes and the rest of the stream after the newline.
The byte stream is modeled as a `List Char`. -/
def takeLine : List Char → Except PyErr (List Char × List Char)
  | [] => .error (.connectionError "Socket closed while reading line.")
  | c :: rest =>
    if c = '\n' then .ok ([], rest)
    else
      match takeLine rest with
      | .error e => .error e
      | .ok (buf, rest') => .ok (c :: buf, rest')

/-- Python `bytes.rstrip(b"\r")`: removes every trailing carriage return. -/
def rstripCR (l : List Char) : List Char :=
  (l.reverse.dropWhile (· == '\r')).reverse

/-- Embedding of `read_line` (lines 10-21 of `dap_client.py`): one header
line up to `\n`, with all trailing `\r` stripped.  The UTF-8 decode is the
identity in this byte-as-char model. -/
def read_line (s : List Char) : Except PyErr (String × List Char) :=
  match takeLine s with
  | .error e => .error e
  | .ok (buf, rest) => .ok (String.mk (rstripCR buf), rest)

/-- Python `str.strip()` on the bytes of a string: removes leading and
trailing whitespace. -/
def pyStrip (l : List Char) : List Char :=
  ((l.dropWhile Char.isWhitespace).reverse.dropWhile Char.isWhitespace).reverse

/-- Python `str.lower()` (ASCII case folding, which is all the client's
scope names and header keys use). -/
def pyLower (s : String) : String :=
  String.mk (s.data.map Char.toLower)

/-- Python `line.split(":", 1)` for a line known to contain a colon: the
characters before the first colon and the characters after it. -/
def splitFirstColon : List Char → List Char × List Char
  | [] => ([], [])
  | c :: rest =>
    if c = ':' then ([], rest)
    else
      let p := splitFirstColon rest
      (c :: p.1, p.2)

/-- Embedding of the header loop of `read_dap_message` (lines 40-48 of
`dap_client.py`) with the byte-scanning of `read_line` written as one
structural recursion over the stream: `buf` collects the bytes of the current
line; at each newline the line (all trailing `\r` stripped) is either the
blank end-of-headers line, or is split at its first colon with the key
stripped and lowercased and the value stripped and stored in the headers
dict, or (no colon) is ignored.  End of stream inside a line is the
`ConnectionError` of `read_line`. -/
def parse_headers (headers : List (String × String)) (buf : List Char) :
    List Char → Except PyErr (List (String × String) × List Char)
  | [] => .error (.connectionError "Socket closed while reading line.")
  | c :: rest =>
    if c = '\n' then
      let line := rstripCR buf
      if line = [] then
        .ok (headers, rest)
      else
        let headers' :=
          if line.contains ':' then
            let p := splitFirstColon line
            dictInsert headers (pyLower (String.mk (pyStrip p.1)))
              (String.mk (pyStrip p.2))
          else headers
        parse_headers headers' [] rest
    else
      parse_headers headers (buf ++ [c]) rest

/-- Numeric value of a non-empty all-digit character list. -/
def digitsVal (cs : List Char) : Option Nat :=
  if cs = [] then none
  else if cs.all Char.isDigit then
    some (cs.foldl (fun acc c => acc * 10 + (c.toNat - '0'.toNat)) 0)
  else none

/-- Python `int(s)` on a string: surrounding whitespace then an optional sign
and decimal digits; anything else raises `ValueError` (modeled as `none`). -/
def pyInt (s : String) : Option Int :=
  match pyStrip s.data with
  | '+' :: rest => (digitsVal rest).map (fun n => (n : Int))
  | '-' :: rest => (digitsVal rest).map (fun n => -(n : Int))
  | t => (digitsVal t).map (fun n => (n : Int))

/-- Embedding of `read_exactly` (lines 24-32 of `dap_client.py`): reads
exactly `n` bytes; a non-positive `n` never enters the loop and yields no
bytes; a stream shorter than `n` is a closed socket, a `ConnectionError`. -/
def read_exactly (s : List Char) (n : Int) : Except PyErr (List Char × List Char) :=
  if n ≤ 0 then .ok ([], s)
  else if s.length < n.toNat then .error (.connectionError "Socket closed unexpectedly.")
  else .ok (s.take n.toNat, s.drop n.toNat)

/-- Embedding of `read_dap_message` (lines 35-56 of `dap_client.py`),
parameterized by the external `json.loads` (returning `none` on a payload
that fails JSON parsing, which raises `json.JSONDecodeError`).  `int(...)` on
a non-numeric Content-Length value raises `ValueError`; `if not length_str`
catches both a missing and an empty header. -/
def read_dap_message {J : Type} (jsonParse : String → Option J) (s : List Char) :
    Except PyErr (J × List Char) :=
  match parse_headers [] [] s with
  | .error e => .error e
  | .ok (headers, rest) =>
    match dictLookup headers "content-length" with
    | none => .error (.connectionError "No Content-Length header in DAP message.")
    | some length_str =>
      if length_str = "" then
        .error (.connectionError "No Content-Length header in DAP message.")
      else
        match pyInt length_str with
        | none => .error .valueError
        | some length =>
          match read_exactly rest length with
          | .error e => .error e
          | .ok (raw_json, rest') =>
            match jsonParse (String.mk raw_json) with
            | none => .error .jsonDecodeError
            | some j => .ok (j, rest')

/-- One thread record of a `threads` response: `t["id"]` is indexed, so `id`
is mandatory. -/
structure ThreadRec where
  id : Int
  deriving Repr, DecidableEq

/-- One stack-frame record of a `stackTrace` response: `id` and `name` are
indexed (mandatory); `frame_info.get("source", {}).get("path", ...)` is
modeled by the optional `sourcePath` (missing source or missing path). -/
structure FrameRec where
  id : Int
  name : String
  sourcePath : Option String
  deriving Repr, DecidableEq

/-- One scope record of a `scopes` response: both `name` and
`variablesReference` are indexed (mandatory). -/
structure ScopeRec where
  name : String
  variablesReference : Int
  deriving Repr, DecidableEq

/-- Body of an incoming DAP message, with one optional field per key the
client reads (`none` models a missing key). -/
structure MsgBody where
  reason : Option String := none
  threads : Option (List ThreadRec) := none
  stackFrames : Option (List FrameRec) := none
  scopes : Option (List ScopeRec) := none
  deriving Repr, DecidableEq

/-- An incoming DAP message as the Python dict the client probes with
`msg.get(...)`: every field is optional. -/
structure Msg where
  type : Option String := none
  command : Option String := none
  event : Option String := none
  success : Option Bool := none
  body : Option MsgBody := none
  deriving Repr, DecidableEq

/-- The wait loops of `dap_client` (e.g. lines 191-198, 209-216, 222-228,
267-273, 287-293 of `dap_client.py`): read messages, discarding (printing)
every message that is not a response to `command`, until one arrives; an
exhausted stream is a closed socket, a `ConnectionError` from `read_line`. -/
def awaitResponse (command : String) : List Msg → Except PyErr (Msg × List Msg)
  | [] => .error (.connectionError "Socket closed while reading line.")
  | m :: rest =>
    if m.type = some "response" ∧ m.command = some command then .ok (m, rest)
    else awaitResponse command rest

/-- The pause wait loop of `dap_client` (lines 244-254 of `dap_client.py`):
a `pause` response is only printed and the loop continues; the loop ends on
any `stopped` event (whose `msg["body"]` indexing requires a body), with no
check of the pause response's success flag, of the event's thread, or that a
pause response was seen at all; every other message is printed and skipped. -/
def pauseLoop : List Msg → Except PyErr (List Msg)
  | [] => .error (.connectionError "Socket closed while reading line.")
  | m :: rest =>
    if m.type = some "response" ∧ m.command = some "pause" then
      pauseLoop rest
    else if m.type = some "event" ∧ m.event = some "stopped" then
      match m.body with
      | none => .error .keyError
      | some _ => .ok rest
    else pauseLoop rest

/-- One frame of the result structure assembled by `dap_client`
(lines 310-317 of `dap_client.py`). -/
structure FrameData where
  id : Int
  functionName : String
  sourcePath : String
  scopes : List (String × List VariableNode)

/-- The scope loop of `dap_client` (lines 298-308 of `dap_client.py`): for
each reported scope, expand its reference with the configured depth limit and
a fresh `visited` set, and store the tree in the scope dict under the
lowercased scope name.  The `scopes` request/response round trip per frame is
handled by the caller; the `variables` round trips are inside
`fetch_variable_tree`. -/
def assembleScopes (adapter : Int → List VarRecord) (depth_limit : Nat) :
    List ScopeRec → Nat → List (String × List VariableNode) →
    Nat × List (String × List VariableNode)
  | [], seq, scope_dict => (seq, scope_dict)
  | s :: rest, seq, scope_dict =>
    let r := fetch_variable_tree adapter depth_limit seq s.variablesReference []
    assembleScopes adapter depth_limit rest r.1
      (dictInsert scope_dict (pyLower s.name) r.2.1)

/-- The globals-drop post-processing of `dap_client` for one frame
(lines 323-327 of `dap_client.py`): when the scope dict has a `globals` key,
compare `len(frame["scopes"]["globals"])` with `len(frame["scopes"]["locals"])`
— the `locals` indexing raises `KeyError` when that key is absent — and
delete `globals` exactly when the entry counts are equal. -/
def postProcessFrame (f : FrameData) : Except PyErr FrameData :=
  match dictLookup f.scopes "globals" with
  | none => .ok f
  | some g =>
    match dictLookup f.scopes "locals" with
    | none => .error .keyError
    | some l =>
      if g.length = l.length then
        .ok { f with scopes := dictDel f.scopes "globals" }
      else
        .ok f

/-- The post-processing loop over all frames (lines 322-327 of
`dap_client.py`); the first raised `KeyError` aborts the client. -/
def postProcessFrames : List FrameData → Except PyErr (List FrameData)
  | [] => .ok []
  | f :: rest =>
    match postProcessFrame f with
    | .error e => .error e
    | .ok f' =>
      match postProcessFrames rest with
      | .error e => .error e
      | .ok rest' => .ok (f' :: rest')

/-- The per-frame loop of `dap_client` (lines 279-317 of `dap_client.py`):
for each frame send a `scopes` request, await its response (indexing its
`body`, default-empty `scopes` list), expand every scope, and assemble the
frame record.  `sent` accumulates the commands of all requests sent, with one
`variables` entry per request issued inside `fetch_variable_tree` (whose seq
delta counts exactly those requests). -/
def framesLoop (adapter : Int → List VarRecord) (depth_limit : Nat) :
    List FrameRec → Nat → List Msg → List String →
    Except PyErr (List FrameData × Nat × List Msg × List String)
  | [], seq, msgs, sent => .ok ([], seq, msgs, sent)
  | f :: rest, seq, msgs, sent =>
    let seq := seq + 1
    let sent := sent ++ ["scopes"]
    match awaitResponse "scopes" msgs with
    | .error e => .error e
    | .ok (scopesResp, msgs) =>
      match scopesResp.body with
      | none => .error .keyError
      | some b =>
        let scope_list := b.scopes.getD []
        let r := assembleScopes adapter depth_limit scope_list seq []
        let sent := sent ++ List.replicate (r.1 - seq) "variables"
        let fd : FrameData :=
          { id := f.id
            functionName := f.name
            sourcePath := f.sourcePath.getD "no_source"
            scopes := r.2 }
        match framesLoop adapter depth_limit rest r.1 msgs sent with
        | .error e => .error e
        | .ok (fds, st) => .ok (fd :: fds, st)

/-- The result dict `{"frames": ...}` returned by `dap_client`. -/
structure DapResult where
  frames : List FrameData

/-- Embedding of `dap_client` (lines 154-330 of `dap_client.py`).  The
incoming stream of parsed messages is `msgs`; the adapter's `variables`
responses are the oracle `adapter`.  Returns the result structure, the
command names of all requests sent in order, and whether the socket was
closed (the source closes it on the two normal return paths and leaves it
open when an exception propagates). -/
def dap_client (adapter : Int → List VarRecord) (depth_limit : Nat)
    (msgs : List Msg) : Except PyErr (DapResult × List String × Bool) :=
  let sent := ["initialize"]
  match awaitResponse "initialize" msgs with
  | .error e => .error e
  | .ok (_, msgs) =>
    let sent := sent ++ ["attach", "configurationDone"]
    match awaitResponse "configurationDone" msgs with
    | .error e => .error e
    | .ok (_, msgs) =>
      let sent := sent ++ ["threads"]
      match awaitResponse "threads" msgs with
      | .error e => .error e
      | .ok (threadsResp, msgs) =>
        match threadsResp.body with
        | none => .error .keyError
        | some tb =>
          match tb.threads.getD [] with
          | [] => .ok ({ frames := [] }, sent, true)
          | _t :: _ =>
            let sent := sent ++ ["pause"]
            match pauseLoop msgs with
            | .error e => .error e
            | .ok msgs =>
              let sent := sent ++ ["stackTrace"]
              match awaitResponse "stackTrace" msgs with
              | .error e => .error e
              | .ok (stResp, msgs) =>
                match stResp.body with
                | none => .error .keyError
                | some sb =>
                  let frames := sb.stackFrames.getD []
                  match framesLoop adapter depth_limit frames 7 msgs sent with
                  | .error e => .error e
                  | .ok (fds, _, _, sent) =>
                    match postProcessFrames fds with
                    | .error e => .error e
                    | .ok fds' => .ok ({ frames := fds' }, sent, true)

/-- A successful response message with the given command, as a well-behaved
adapter sends during the handshake. -/
def respMsg (command : String) : Msg :=
  { type := some "response", command := some command, success := some true }

/-- A `threads` response whose body reports the given thread list. -/
def threadsResp (ts : List ThreadRec) : Msg :=
  { type := some "response", command := some "threads", success := some true,
    body := some { threads := some ts } }

/-- A `stopped` event with the reason a pause produces. -/
def stoppedEvent : Msg :=
  { type := some "event", event := some "stopped",
    body := some { reason := some "pause" } }

/-- A child record with every optional field missing. -/
def bareRecord : VarRecord :=
  { name := "x", value := none, type := none, evaluateName := none,
    variablesReference := none }

/-- Adapter reporting a single child with every optional field missing. -/
def bareAdapter : Int → List VarRecord := fun _ => [bareRecord]

/-- A non-expandable node used to populate concrete scopes in the
post-processing scenarios. -/
def leafNode (s : String) : VariableNode :=
  { name := s, value := "", type := "", evaluateName := none,
    variablesReference := 0, children := [] }

/-! Helper lemmas. -/

/-- Expanding the unbounded chain from reference `r` with budget `d` builds
exactly the path `chainTree r d`, costs `d + 1` requests, and records
`chainRefs r d`. -/
theorem chain_expand (d : Nat) : ∀ (r : Int) (seq : Nat) (visited : List Int),
    0 < r → (∀ x ∈ visited, x < r) →
    fetch_variable_tree chainAdapter d seq r visited =
      (seq + d + 1, [chainTree r d], chainRefs r d ++ visited) := by
  induction d with
  | zero =>
    intro r seq visited hr hvis
    have hniv : r ∉ visited := fun h => lt_irrefl r (hvis r h)
    simp [fetch_variable_tree, chainAdapter, chainTree, chainRefs,
      fetch_variables, mkItem, hniv]
  | succ d ih =>
    intro r seq visited hr hvis
    have hniv : r ∉ visited := fun h => lt_irrefl r (hvis r h)
    have hr1 : (0 : Int) < r + 1 := by omega
    have hvis1 : ∀ x ∈ r :: visited, x < r + 1 := by
      intro x hx
      rcases List.mem_cons.mp hx with h | h
      · omega
      · have := hvis x h; omega
    simp only [fetch_variable_tree, chainAdapter, fetch_variables, fetchStep,
      mkItem, if_neg hniv, List.foldl_cons, List.foldl_nil, Option.getD_some]
    rw [if_pos hr1, ih (r + 1) (seq + 1) (r :: visited) hr1 hvis1]
    simp [chainTree, chainRefs]
    omega

/-- The chain tree at budget `d` has exactly `d + 1` levels. -/
theorem chainTree_nodeDepth : ∀ (d : Nat) (r : Int),
    nodeDepth (chainTree r d) = d + 1 := by
  intro d
  induction d with
  | zero => intro r; simp [chainTree, nodeDepth, listDepth]
  | succ d ih => intro r; simp [chainTree, nodeDepth, listDepth, ih]; omega

/-- References already in `visited` are never removed by an expansion. -/
theorem fetch_visited_mono (adapter : Int → List VarRecord) :
    ∀ (d seq : Nat) (r : Int) (visited : List Int),
      visited ⊆ (fetch_variable_tree adapter d seq r visited).2.2 := by
  intro d
  induction d with
  | zero =>
    intro seq r visited
    by_cases h : r ∈ visited
    · simp [fetch_variable_tree, h]
    · simp [fetch_variable_tree, h]
  | succ d ih =>
    intro seq r visited
    by_cases h : r ∈ visited
    · simp [fetch_variable_tree, h]
    · simp only [fetch_variable_tree, if_neg h]
      have step : ∀ (l : List VarRecord) (st : Nat × List VariableNode × List Int),
          st.2.2 ⊆ (l.foldl (fetchStep (fun s c vs => fetch_variable_tree adapter d s c vs)) st).2.2 := by
        intro l
        induction l with
        | nil => intro st; simp
        | cons v rest ihl =>
          intro st
          simp only [List.foldl_cons]
          refine List.Subset.trans ?_ (ihl _)
          simp only [fetchStep]
          split
          · exact ih _ _ _
          · exact List.Subset.refl _
      exact List.Subset.trans (List.subset_cons_self r visited)
        (step (fetch_variables adapter seq r).2
          ((fetch_variables adapter seq r).1, [], r :: visited))

/-! Claim theorems. -/

/-- C1: expanding reference 1 against the cyclic adapter (whose variable A
reports a single child referring back to A) with depth budget 5 and an empty
visited set terminates (the expander is a total function) and returns a tree
whose only child node carries exactly the cycle sentinel — a synthetic node
with the reserved marker name, a zero reference handle, and no children —
after exactly two `variables` requests, not an infinite or depth-5 deep
structure. -/
theorem cyclic_expansion_returns_sentinel :
    fetch_variable_tree cyclicAdapter 5 1 1 [] =
      (2,
       [{ name := "a", value := "<A>", type := "obj", evaluateName := none,
          variablesReference := 1, children := [recursiveSentinel] }],
       [1]) ∧
    recursiveSentinel.name = "<recursive>" ∧
    recursiveSentinel.variablesReference = 0 ∧
    recursiveSentinel.children = [] :=
  ⟨rfl, rfl, rfl, rfl⟩

/-- C2 counterexample: against `siblingAdapter`, reference 2 is fully
expanded inside the first child branch `x` and is no longer on the active
recursion path when the sibling branch `y` reaches it, yet `y`'s child is
the cycle sentinel, not the normal expansion `[z]` the claim requires: the
visited set acts as a per-expansion deduplication cache. -/
theorem sibling_reexpansion_counterexample :
    fetch_variable_tree siblingAdapter 2 1 1 [] =
      (3,
       [{ name := "x", value := "<X>", type := "obj", evaluateName := none,
          variablesReference := 2,
          children := [{ name := "z", value := "1", type := "int",
                         evaluateName := none, variablesReference := 0,
                         children := [] }] },
        { name := "y", value := "<Y>", type := "obj", evaluateName := none,
          variablesReference := 2,
          children := [recursiveSentinel] }],
       [2, 1]) := rfl

/-- C2 (amended): the visited set is scoped to one whole root expansion, not
to the active recursion path: any reference already in `visited` — including
one added by a completed sibling branch, since the set is threaded through
all branches — is replaced by the cycle sentinel without a request, and no
reference is ever removed from the set during an expansion. -/
theorem visited_set_is_expansion_wide :
    (∀ (adapter : Int → List VarRecord) (d seq : Nat) (r : Int)
       (visited : List Int), r ∈ visited →
       fetch_variable_tree adapter d seq r visited =
         (seq, [recursiveSentinel], visited)) ∧
    (∀ (adapter : Int → List VarRecord) (d seq : Nat) (r : Int)
       (visited : List Int),
       visited ⊆ (fetch_variable_tree adapter d seq r visited).2.2) := by
  constructor
  · intro adapter d seq r visited h
    cases d <;> simp [fetch_variable_tree, h]
  · intro adapter d seq r visited
    exact fetch_visited_mono adapter d seq r visited

/-- Witness for C2's amended theorem at a concrete input: reference 2 with
visited set `[2]` short-circuits to the sentinel, and the visited set
survives the expansion. -/
theorem visited_set_is_expansion_wide_witness :
    fetch_variable_tree siblingAdapter 0 7 2 [2] = (7, [recursiveSentinel], [2]) ∧
    [(2 : Int)] ⊆ (fetch_variable_tree siblingAdapter 0 7 2 [2]).2.2 :=
  ⟨visited_set_is_expansion_wide.1 siblingAdapter 0 7 2 [2] (by simp),
   visited_set_is_expansion_wide.2 siblingAdapter 0 7 2 [2]⟩

/-- C3: expanding the unbounded chain adapter from reference 1 with any
depth budget `d` returns, after exactly `d + 1` requests, the single path
`chainTree 1 d`, a tree of exactly `d + 1` levels whose deepest node has
empty children although its reference is non-zero; and for every adapter a
budget of 0 fetches that level's children but expands none of them (all
children empty). -/
theorem chain_expansion_depth_bound (d seq : Nat) :
    fetch_variable_tree chainAdapter d seq 1 [] =
      (seq + d + 1, [chainTree 1 d], chainRefs 1 d) ∧
    listDepth [chainTree 1 d] = d + 1 ∧
    (∀ (adapter : Int → List VarRecord) (q : Nat) (ref : Int),
      fetch_variable_tree adapter 0 q ref [] =
        (q + 1, (adapter ref).map mkItem, [ref])) := by
  refine ⟨?_, ?_, ?_⟩
  · have h := chain_expand d 1 seq [] (by norm_num) (by simp)
    simpa using h
  · simp [listDepth, chainTree_nodeDepth d 1]
  · intro adapter q ref
    simp [fetch_variable_tree, fetch_variables]

/-- C6 counterexample: for a child record with every optional field missing,
the built node's evaluate-expression field is `none` (Python `None`, the JSON
null), not the empty string the claim requires for missing string fields. -/
theorem missing_evaluate_name_is_null :
    fetch_variable_tree bareAdapter 0 0 1 [] =
      (1,
       [{ name := "x", value := "", type := "", evaluateName := none,
          variablesReference := 0, children := [] }],
       [1]) ∧
    (fetch_variable_tree bareAdapter 0 0 1 []).2.1.map VariableNode.evaluateName =
      [none] :=
  ⟨rfl, rfl⟩

/-- C6 (amended): for every child record, the node is populated from the
record's name, value, type, evaluate-expression and reference fields; a
missing value or type defaults to the empty string, a missing reference
defaults to zero, but a missing evaluate-expression stays `none` (null); no
missing optional field causes a failure. -/
theorem child_record_field_defaults (v : VarRecord) (seq : Nat) (ref : Int) :
    fetch_variable_tree (fun _ => [v]) 0 seq ref [] =
      (seq + 1,
       [{ name := v.name, value := v.value.getD "", type := v.type.getD "",
          evaluateName := v.evaluateName,
          variablesReference := v.variablesReference.getD 0, children := [] }],
       [ref]) := by
  simp [fetch_variable_tree, fetch_variables, mkItem]

/-- C4 counterexample: the pause wait loop accepts a stream containing only a
`stopped` event and no `pause` response at all — the handshake reaches the
paused state (and so proceeds to `stackTrace`) without a successful `pause`
response ever being consumed, contradicting the claim that both are
required. -/
theorem paused_without_pause_response :
    pauseLoop [stoppedEvent] = .ok [] ∧
    (∀ m ∈ [stoppedEvent],
      ¬ (m.type = some "response" ∧ m.command = some "pause")) :=
  ⟨rfl, by decide⟩

/-- C4 (amended): the pause wait loop leaves the loop only upon consuming a
`stopped` event: on a stream with no stopped event it never succeeds — in
particular a successful `pause` response alone is never sufficient, since
every `pause` response is consumed and skipped — but it does not require a
pause response to precede the stopped event, nor check the response's
success flag or the event's thread. -/
theorem paused_requires_stopped_event :
    (∀ (msgs : List Msg),
      (∀ m ∈ msgs, ¬ (m.type = some "event" ∧ m.event = some "stopped")) →
      ∀ rest, pauseLoop msgs ≠ .ok rest) ∧
    (∀ (m : Msg) (msgs : List Msg),
      m.type = some "response" → m.command = some "pause" →
      pauseLoop (m :: msgs) = pauseLoop msgs) := by
  constructor
  · intro msgs
    induction msgs with
    | nil => intro _ rest hc; simp [pauseLoop] at hc
    | cons m ms ih =>
      intro h rest hc
      have hms : ∀ m' ∈ ms, ¬ (m'.type = some "event" ∧ m'.event = some "stopped") :=
        fun m' hm' => h m' (List.mem_cons_of_mem _ hm')
      have hm : ¬ (m.type = some "event" ∧ m.event = some "stopped") :=
        h m (List.mem_cons_self m ms)
      by_cases h1 : m.type = some "response" ∧ m.command = some "pause"
      · rw [pauseLoop, if_pos h1] at hc
        exact ih hms rest hc
      · rw [pauseLoop, if_neg h1, if_neg hm] at hc
        exact ih hms rest hc
  · intro m msgs h1 h2
    rw [pauseLoop, if_pos ⟨h1, h2⟩]

/-- Witness for C4's amended theorem at concrete inputs: a stream holding
only a successful pause response never reaches the paused state, and the
pause response at the head of a stream is skipped. -/
theorem paused_requires_stopped_event_witness :
    pauseLoop [respMsg "pause"] ≠ .ok [] ∧
    pauseLoop (respMsg "pause" :: [stoppedEvent]) = pauseLoop [stoppedEvent] :=
  ⟨paused_requires_stopped_event.1 [respMsg "pause"] (by decide) [],
   paused_requires_stopped_event.2 (respMsg "pause") [stoppedEvent] rfl rfl⟩

/-- C5: whenever the parsed header block of a frame has no `content-length`
key (or an empty value, which Python's falsiness test conflates with a
missing header), `read_dap_message` fails with the no-Content-Length
`ConnectionError`; whenever the value is non-numeric it fails with the
`ValueError` of `int(...)`; and whenever the payload is read but fails JSON
parsing it fails with `JSONDecodeError`; in every case no message is
returned and the error propagates. -/
theorem read_dap_message_failures {J : Type} (jsonParse : String → Option J)
    (s : List Char) (headers : List (String × String)) (rest : List Char)
    (hph : parse_headers [] [] s = .ok (headers, rest)) :
    (dictLookup headers "content-length" = none →
      read_dap_message jsonParse s =
        .error (.connectionError "No Content-Length header in DAP message.")) ∧
    (dictLookup headers "content-length" = some "" →
      read_dap_message jsonParse s =
        .error (.connectionError "No Content-Length header in DAP message.")) ∧
    (∀ ls, dictLookup headers "content-length" = some ls → ls ≠ "" →
      pyInt ls = none →
      read_dap_message jsonParse s = .error .valueError) ∧
    (∀ ls n raw rest', dictLookup headers "content-length" = some ls →
      pyInt ls = some n → read_exactly rest n = .ok (raw, rest') →
      jsonParse (String.mk raw) = none →
      read_dap_message jsonParse s = .error .jsonDecodeError) := by
  refine ⟨?_, ?_, ?_, ?_⟩
  · intro h
    simp only [read_dap_message, hph, h]
  · intro h
    simp only [read_dap_message, hph, h, if_true]
  · intro ls hls hne hpy
    simp only [read_dap_message, hph, hls, if_neg hne, hpy]
  · intro ls n raw rest' hls hpy hre hjs
    have hne : ls ≠ "" := by
      intro e
      rw [e] at hpy
      have : pyInt "" = none := rfl
      rw [this] at hpy
      cases hpy
    simp only [read_dap_message, hph, hls, if_neg hne, hpy, hre, hjs]

/-- Witness for C5 at three concrete frames: a frame with no Content-Length
header, one with the non-numeric value `abc`, and one whose payload fails
JSON parsing. -/
theorem read_dap_message_failures_witness :
    read_dap_message (fun _ => (none : Option Unit)) ("Foo: 1\r\n\r\nxx").data =
      .error (.connectionError "No Content-Length header in DAP message.") ∧
    read_dap_message (fun _ => (none : Option Unit))
        ("Content-Length: abc\r\n\r\nxx").data = .error .valueError ∧
    read_dap_message (fun _ => (none : Option Unit))
        ("Content-Length: 2\r\n\r\nab").data = .error .jsonDecodeError :=
  ⟨(read_dap_message_failures (fun _ => (none : Option Unit)) ("Foo: 1\r\n\r\nxx").data
      [("foo", "1")] "xx".data rfl).1 rfl,
   (read_dap_message_failures (fun _ => (none : Option Unit))
      ("Content-Length: abc\r\n\r\nxx").data
      [("content-length", "abc")] "xx".data rfl).2.2.1 "abc" rfl (by decide) rfl,
   (read_dap_message_failures (fun _ => (none : Option Unit))
      ("Content-Length: 2\r\n\r\nab").data
      [("content-length", "2")] "ab".data rfl).2.2.2 "2" 2 "ab".data [] rfl rfl rfl rfl⟩

/-- C7: for a frame whose scope dict holds both a globals and a locals
scope, post-processing returns the frame with the globals scope deleted
exactly when the two scopes' entry counts are equal — a count comparison
only, never a content comparison — and returns the frame unchanged when the
counts differ. -/
theorem globals_dropped_iff_counts_equal (f : FrameData)
    (g l : List VariableNode)
    (hg : dictLookup f.scopes "globals" = some g)
    (hl : dictLookup f.scopes "locals" = some l) :
    postProcessFrame f =
      .ok (if g.length = l.length
           then { f with scopes := dictDel f.scopes "globals" }
           else f) := by
  simp only [postProcessFrame, hg, hl]
  by_cases hc : g.length = l.length
  · simp [hc]
  · simp [hc]

/-- Witness for C7 at a concrete frame whose locals and globals scopes have
different contents but the same entry count 3: the globals scope is
dropped. -/
theorem globals_dropped_iff_counts_equal_witness :
    postProcessFrame
      { id := 1, functionName := "main", sourcePath := "a.py",
        scopes := [("locals", [leafNode "p", leafNode "q", leafNode "r"]),
                   ("globals", [leafNode "g1", leafNode "g2", leafNode "g3"])] } =
      .ok { id := 1, functionName := "main", sourcePath := "a.py",
            scopes := [("locals", [leafNode "p", leafNode "q", leafNode "r"])] } :=
  (globals_dropped_iff_counts_equal
      { id := 1, functionName := "main", sourcePath := "a.py",
        scopes := [("locals", [leafNode "p", leafNode "q", leafNode "r"]),
                   ("globals", [leafNode "g1", leafNode "g2", leafNode "g3"])] }
      [leafNode "g1", leafNode "g2", leafNode "g3"]
      [leafNode "p", leafNode "q", leafNode "r"] rfl rfl).trans rfl

/-- C8: when the adapter's `threads` response reports an empty thread list,
the client returns `\x7b"frames": []\x7d` as a valid result, closes the socket
(final flag `true`), and the requests sent are exactly `initialize`,
`attach`, `configurationDone`, `threads` — no `pause`, `stackTrace`,
`scopes` or `variables` request is issued, for every adapter oracle and
depth limit. -/
theorem empty_threads_returns_empty_frames (adapter : Int → List VarRecord)
    (d : Nat) :
    dap_client adapter d
        [respMsg "initialize", respMsg "configurationDone", threadsResp []] =
      .ok ({ frames := [] },
           ["initialize", "attach", "configurationDone", "threads"], true) ∧
    "pause" ∉ ["initialize", "attach", "configurationDone", "threads"] ∧
    "stackTrace" ∉ ["initialize", "attach", "configurationDone", "threads"] ∧
    "scopes" ∉ ["initialize", "attach", "configurationDone", "threads"] ∧
    "variables" ∉ ["initialize", "attach", "configurationDone", "threads"] :=
  ⟨rfl, by decide, by decide, by decide, by decide⟩

/-- C9: post-processing a frame whose scope dict has a globals scope but no
locals scope raises an uncaught `KeyError` (from `frame["scopes"]["locals"]`)
instead of returning a result, and the whole post-processing pass over any
frame list starting with such a frame fails the same way. -/
theorem globals_without_locals_keyerror (f : FrameData)
    (g : List VariableNode)
    (hg : dictLookup f.scopes "globals" = some g)
    (hl : dictLookup f.scopes "locals" = none) :
    postProcessFrame f = .error .keyError ∧
    ∀ (rest : List FrameData),
      postProcessFrames (f :: rest) = .error .keyError := by
  have h1 : postProcessFrame f = .error .keyError := by
    simp only [postProcessFrame, hg, hl]
  exact ⟨h1, fun rest => by simp only [postProcessFrames, h1]⟩

/-- Witness for C9 at a concrete frame holding only a globals scope. -/
theorem globals_without_locals_keyerror_witness :
    postProcessFrame
      { id := 1, functionName := "main", sourcePath := "a.py",
        scopes := [("globals", [leafNode "g1"])] } = .error .keyError ∧
    postProcessFrames
      [{ id := 1, functionName := "main", sourcePath := "a.py",
         scopes := [("globals", [leafNode "g1"])] }] = .error .keyError :=
  ⟨(globals_without_locals_keyerror
      { id := 1, functionName := "main", sourcePath := "a.py",
        scopes := [("globals", [leafNode "g1"])] } [leafNode "g1"] rfl rfl).1,
   (globals_without_locals_keyerror
      { id := 1, functionName := "main", sourcePath := "a.py",
        scopes := [("globals", [leafNode "g1"])] } [leafNode "g1"] rfl rfl).2 []⟩

/-- Keys present after a dict insertion: the inserted key or an old key. -/
theorem dictInsert_keys {α : Type} :
    ∀ (d : List (String × α)) (k : String) (v : α) (x : String),
      x ∈ (dictInsert d k v).map Prod.fst → x = k ∨ x ∈ d.map Prod.fst := by
  intro d
  induction d with
  | nil =>
    intro k v x hx
    rw [show dictInsert ([] : List (String × α)) k v = [(k, v)] from rfl] at hx
    rw [List.map_cons, List.map_nil] at hx
    exact Or.inl (List.mem_singleton.mp hx)
  | cons p rest ih =>
    intro k v x hx
    obtain ⟨k', v'⟩ := p
    by_cases he : k' = k
    · rw [show dictInsert ((k', v') :: rest) k v = (k, v) :: rest from by
        simp [dictInsert, he]] at hx
      rw [List.map_cons] at hx
      rcases List.mem_cons.mp hx with h | h
      · exact Or.inl h
      · exact Or.inr (by rw [List.map_cons]; exact List.mem_cons_of_mem _ h)
    · rw [show dictInsert ((k', v') :: rest) k v = (k', v') :: dictInsert rest k v from by
        simp [dictInsert, he]] at hx
      rw [List.map_cons] at hx
      rcases List.mem_cons.mp hx with h | h
      · exact Or.inr (by rw [List.map_cons]; exact List.mem_cons.mpr (Or.inl h))
      · rcases ih k v x h with h' | h'
        · exact Or.inl h'
        · exact Or.inr (by rw [List.map_cons]; exact List.mem_cons_of_mem _ h')

/-- Every key of the scope dict built by `assembleScopes` comes from the
accumulator or is the lowercased name of a reported scope. -/
theorem assembleScopes_keys_aux (adapter : Int → List VarRecord) (dl : Nat) :
    ∀ (scopes : List ScopeRec) (seq : Nat)
      (acc : List (String × List VariableNode)) (k : String),
      k ∈ (assembleScopes adapter dl scopes seq acc).2.map Prod.fst →
      k ∈ acc.map Prod.fst ∨ ∃ s ∈ scopes, k = pyLower s.name := by
  intro scopes
  induction scopes with
  | nil => intro seq acc k hk; exact Or.inl (by simpa [assembleScopes] using hk)
  | cons s rest ih =>
    intro seq acc k hk
    simp only [assembleScopes] at hk
    rcases ih _ _ k hk with h | h
    · rcases dictInsert_keys acc (pyLower s.name) _ k h with h' | h'
      · exact Or.inr ⟨s, by simp, h'⟩
      · exact Or.inl h'
    · rcases h with ⟨s', hs', he⟩
      exact Or.inr ⟨s', by simp [hs'], he⟩

/-- C10: every key of the scopes mapping a frame's result is built with is
the Python-lowercased form of an adapter-reported scope name; the original
casing is never used as a key. -/
theorem scope_keys_are_lowercased_names (adapter : Int → List VarRecord)
    (dl : Nat) (scopes : List ScopeRec) (seq : Nat) (k : String)
    (hk : k ∈ (assembleScopes adapter dl scopes seq []).2.map Prod.fst) :
    ∃ s ∈ scopes, k = pyLower s.name := by
  rcases assembleScopes_keys_aux adapter dl scopes seq [] k hk with h | h
  · simp at h
  · exact h

/-- Witness for C10 at a concrete input: the scope reported as `Locals` is
stored under the key `locals`. -/
theorem scope_keys_are_lowercased_names_witness :
    ∃ s ∈ [ScopeRec.mk "Locals" 1], "locals" = pyLower s.name :=
  scope_keys_are_lowercased_names (fun _ => []) 0 [ScopeRec.mk "Locals" 1] 0
    "locals" (by decide)
